import Mathlib

/-!
Verification of the async-ssh2-lite session core: the retry-on-would-block
adapter, the session wrapper, the session configuration, and the adapted
error type.  Definitions are shallow embeddings of the Rust code in
`src/async-ssh2-lite/src/session.rs` and `src/async-ssh2-lite/src/error.rs`.
Components of the crate that are not part of those files (the
`AsyncSessionStream` retry primitive in `session_stream.rs`, the
`AsyncAgent` / `AsyncChannel` wrappers) are modelled from the
specification, as marked in their doc comments.
-/

namespace AsyncSsh2

/-! ## Block directions and engine outcomes -/

/-- The direction hint attached to a would-block signal (ssh2
`BlockDirections`). -/
inductive BlockDir
  | inbound
  | outbound
  | both
  deriving Repr, DecidableEq

/-- Modelled from the spec: the outcome of one invocation of an operation
closure against the blocking protocol engine — success, a would-block
signal carrying a direction hint, or a non-would-block engine error
(spec section 4.1, contract of the Retry Adapter). -/
inductive EngineOutcome (T E : Type)
  | success (v : T)
  | wouldBlock (dir : BlockDir)
  | failure (e : E)
  deriving Repr, DecidableEq

/-! ## The Retry Adapter (`AsyncSessionStream::read_and_write_with`)

The Rust primitive lives in `session_stream.rs`, which is not among the
provided sources; it is modelled from spec section 4.1.  An operation
closure is represented extensionally as a function from the invocation
index to that invocation's outcome.  The suspension on the Readiness
Source has no effect on the result, so it is elided; `fuel` bounds how
many invocations we are willing to observe, and `none` means the
adapter is still suspended (the loop has no retry-count limit). -/

/-- Modelled from the spec: the Retry Adapter loop starting at invocation
index `i`.  Invoke the closure; on success resolve immediately with the
value; on a would-block signal suspend for the hinted direction and
re-invoke; on any other error fail with exactly that error.  The returned
`Nat` counts the total number of invocations of the closure. -/
def retryFrom {T E : Type} (op : Nat → EngineOutcome T E) : Nat → Nat → Option (Except E T × Nat)
  | _, 0 => none
  | i, fuel + 1 =>
    match op i with
    | .success v => some (.ok v, i + 1)
    | .failure e => some (.error e, i + 1)
    | .wouldBlock _ => retryFrom op (i + 1) fuel

/-- Modelled from the spec: `AsyncSessionStream::read_and_write_with`
(session_stream.rs, not among the provided sources), the adapter every
`AsyncSession` operation delegates to.  It starts the retry loop at the
first invocation. -/
def read_and_write_with {T E : Type} (op : Nat → EngineOutcome T E) (fuel : Nat) :
    Option (Except E T × Nat) :=
  retryFrom op 0 fuel

/-- Following the spec's words: the value obtained by invoking the closure
`N + 1` times synchronously with readiness restored between attempts,
keeping the final invocation's success value (spec section 8, retry
transparency). -/
def syncRetriedValue {T E : Type} (op : Nat → EngineOutcome T E) (N : Nat) : Option T :=
  match op N with
  | .success v => some v
  | _ => none

/-! ## The adapted error type (`src/async-ssh2-lite/src/error.rs`) -/

/-- An engine-reported protocol error (ssh2 `Error`): an error code plus a
message. -/
structure Ssh2Error where
  code : Int
  msg : String
  deriving Repr, DecidableEq

/-- A generic I/O error kind; `other` is the kind used by every wrapping
conversion in this crate (`std::io::ErrorKind`). -/
inductive IoErrorKind
  | notFound
  | permissionDenied
  | wouldBlock
  | other
  deriving Repr, DecidableEq

/-- The payload carried by a generic I/O error: a plain message, a wrapped
engine protocol error, or a wrapped boxed error. -/
inductive IoPayload
  | msg (s : String)
  | ssh2 (e : Ssh2Error)
  | boxed (s : String)
  deriving Repr, DecidableEq

/-- A generic I/O error (`std::io::Error`): a kind plus a payload. -/
structure IoError where
  kind : IoErrorKind
  payload : IoPayload
  deriving Repr, DecidableEq

/-- The adapted error type (`error.rs` lines 7-12): a tagged union of an
engine protocol error, a transport I/O error, and an other/boxed error. -/
inductive Error
  | Ssh2 (e : Ssh2Error)
  | Io (e : IoError)
  | Other (e : String)
  deriving Repr, DecidableEq

/-- `From<Error> for IoError` (`error.rs` lines 35-43): the transport I/O
variant is returned unchanged; the other two variants are wrapped as I/O
errors of kind `Other`. -/
def Error.toIoError : Error → IoError
  | .Ssh2 e => ⟨.other, .ssh2 e⟩
  | .Io e => e
  | .Other e => ⟨.other, .boxed e⟩

/-! ## Duration (std::time::Duration, as used by the configuration) -/

/-- `std::time::Duration`: whole seconds plus a sub-second nanosecond
count. -/
structure Duration where
  secs : Nat
  nanos : Nat
  deriving Repr, DecidableEq

/-- `Duration::from_millis`. -/
def Duration.from_millis (ms : Nat) : Duration :=
  ⟨ms / 1000, (ms % 1000) * 1000000⟩

/-- `Duration::as_millis`. -/
def Duration.as_millis (d : Duration) : Nat :=
  d.secs * 1000 + d.nanos / 1000000

/-! ## SessionConfiguration (`session.rs` lines 421-462) -/

/-- The keepalive sub-configuration (`SessionKeepaliveConfiguration`). -/
structure SessionKeepaliveConfiguration where
  want_reply : Bool
  interval : Nat
  deriving Repr, DecidableEq

/-- `SessionConfiguration` (`session.rs` lines 421-428): a value object
whose fields are all optional; an absent field means the engine default. -/
structure SessionConfiguration where
  banner : Option String
  allow_sigpipe : Option Bool
  compress : Option Bool
  timeout : Option Duration
  keepalive : Option SessionKeepaliveConfiguration
  deriving Repr, DecidableEq

/-- `SessionConfiguration::new` (`Default::default()`): every field absent. -/
def SessionConfiguration.new : SessionConfiguration :=
  ⟨none, none, none, none, none⟩

/-- `SessionConfiguration::set_banner`. -/
def SessionConfiguration.set_banner (c : SessionConfiguration) (banner : String) :
    SessionConfiguration :=
  { c with banner := some banner }

/-- `SessionConfiguration::set_allow_sigpipe`. -/
def SessionConfiguration.set_allow_sigpipe (c : SessionConfiguration) (block : Bool) :
    SessionConfiguration :=
  { c with allow_sigpipe := some block }

/-- `SessionConfiguration::set_compress`. -/
def SessionConfiguration.set_compress (c : SessionConfiguration) (compress : Bool) :
    SessionConfiguration :=
  { c with compress := some compress }

/-- `SessionConfiguration::set_timeout`: the millisecond count (a u32,
widened losslessly to u64) is stored as a `Duration`. -/
def SessionConfiguration.set_timeout (c : SessionConfiguration) (timeout_ms : Nat) :
    SessionConfiguration :=
  { c with timeout := some (Duration.from_millis timeout_ms) }

/-- `SessionConfiguration::set_keepalive`. -/
def SessionConfiguration.set_keepalive (c : SessionConfiguration) (want_reply : Bool)
    (interval : Nat) : SessionConfiguration :=
  { c with keepalive := some ⟨want_reply, interval⟩ }

/-! ## The protocol engine (ssh2 `Session`), observed through its setters

The engine itself is an external collaborator; we record the settable
state this crate touches, plus the trace of setter calls `get_session`
and `AsyncSession::new` issue, in order. -/

/-- One setter call issued to the protocol engine. -/
inductive EngineCall
  | set_blocking (b : Bool)
  | set_tcp_stream (fd : Nat)
  | set_banner (s : String)
  | set_allow_sigpipe (b : Bool)
  | set_compress (b : Bool)
  | set_timeout (ms : Nat)
  | set_keepalive (want_reply : Bool) (interval : Nat)
  deriving Repr, DecidableEq

/-- The engine state this crate can influence.  `Option` fields are `none`
while the engine's built-in default is untouched; a fresh engine is in
blocking mode (libssh2 default).  `calls` is the trace of setter calls,
oldest first. -/
structure EngineSession where
  blocking : Bool
  banner : Option String
  allow_sigpipe : Option Bool
  compress : Option Bool
  timeout_ms : Option Nat
  keepalive : Option (Bool × Nat)
  tcp_stream : Option Nat
  calls : List EngineCall
  deriving Repr, DecidableEq

/-- `ssh2::Session::new()`: a fresh engine, blocking, every setting at its
built-in default, empty call trace. -/
def EngineSession.new : EngineSession :=
  ⟨true, none, none, none, none, none, none, []⟩

/-- `Session::set_blocking`. -/
def EngineSession.set_blocking (s : EngineSession) (b : Bool) : EngineSession :=
  { s with blocking := b, calls := s.calls ++ [.set_blocking b] }

/-- `Session::set_tcp_stream` (binding the raw descriptor). -/
def EngineSession.set_tcp_stream (s : EngineSession) (fd : Nat) : EngineSession :=
  { s with tcp_stream := some fd, calls := s.calls ++ [.set_tcp_stream fd] }

/-- `Session::set_banner` (the source propagates an engine failure here;
the setting itself is modelled as always recorded). -/
def EngineSession.set_banner (s : EngineSession) (banner : String) : EngineSession :=
  { s with banner := some banner, calls := s.calls ++ [.set_banner banner] }

/-- `Session::set_allow_sigpipe`. -/
def EngineSession.set_allow_sigpipe (s : EngineSession) (b : Bool) : EngineSession :=
  { s with allow_sigpipe := some b, calls := s.calls ++ [.set_allow_sigpipe b] }

/-- `Session::set_compress`. -/
def EngineSession.set_compress (s : EngineSession) (b : Bool) : EngineSession :=
  { s with compress := some b, calls := s.calls ++ [.set_compress b] }

/-- `Session::set_timeout` (takes a u32 millisecond count). -/
def EngineSession.set_timeout (s : EngineSession) (ms : Nat) : EngineSession :=
  { s with timeout_ms := some ms, calls := s.calls ++ [.set_timeout ms] }

/-- `Session::set_keepalive`. -/
def EngineSession.set_keepalive (s : EngineSession) (want_reply : Bool) (interval : Nat) :
    EngineSession :=
  { s with keepalive := some (want_reply, interval), calls := s.calls ++ [.set_keepalive want_reply interval] }

/-- `get_session` (`session.rs` lines 464-487): build a fresh engine, put
it in non-blocking mode, then apply the present configuration fields in
the fixed order banner, sigpipe, compress, timeout, keepalive.  The
timeout is read back from the stored `Duration` as `as_millis() as u32`
(truncation to 32 bits). -/
def get_session (configuration : Option SessionConfiguration) : EngineSession :=
  let session := EngineSession.new.set_blocking false
  match configuration with
  | none => session
  | some configuration =>
    let session := match configuration.banner with
      | some banner => session.set_banner banner
      | none => session
    let session := match configuration.allow_sigpipe with
      | some allow_sigpipe => session.set_allow_sigpipe allow_sigpipe
      | none => session
    let session := match configuration.compress with
      | some compress => session.set_compress compress
      | none => session
    let session := match configuration.timeout with
      | some timeout => session.set_timeout (timeout.as_millis % 2 ^ 32)
      | none => session
    let session := match configuration.keepalive with
      | some keepalive => session.set_keepalive keepalive.want_reply keepalive.interval
      | none => session
    session

/-! ## The session wrapper (`AsyncSession`) and shared readiness source -/

/-- A reference-counted shared handle (`std::sync::Arc`) to the Readiness
Source.  `ptr` models the identity of the heap allocation: `Arc::new`
yields a fresh allocation, `Arc::clone` copies the pointer, so two handles
are the very same Arc exactly when their `ptr` coincide. -/
structure Arc where
  ptr : Nat
  deriving Repr, DecidableEq

/-- `Arc::clone`: a pointer copy to the same allocation. -/
def Arc.clone (a : Arc) : Arc := a

/-- `AsyncSession` (`session.rs` lines 21-24): owns one engine instance
and a shared handle to the Readiness Source. -/
structure AsyncSession where
  inner : EngineSession
  stream : Arc
  deriving Repr, DecidableEq

/-- `AsyncSession::new` (`session.rs` lines 31-41): build the engine via
`get_session`, bind the transport's raw descriptor, then wrap the
transport in a fresh `Arc`.  `streamPtr` is the allocation identity the
fresh `Arc::new` receives. -/
def AsyncSession.new (fd : Nat) (streamPtr : Nat)
    (configuration : Option SessionConfiguration) : AsyncSession :=
  { inner := (get_session configuration).set_tcp_stream fd, stream := ⟨streamPtr⟩ }

/-- `AsyncSession::is_blocking` (`session.rs` lines 63-65). -/
def AsyncSession.is_blocking (s : AsyncSession) : Bool :=
  s.inner.blocking

/-! ## Derived resources

`AsyncChannel`, `AsyncListener` and `AsyncSftp` live in sibling modules
that are not among the provided sources; they are modelled from spec
sections 2 and 3: each derived resource owns its own engine sub-handle
and holds a shared handle to the parent's Readiness Source.  The
construction at each opener's success path follows the `from_parts(_,
self.stream.clone())` calls recorded (commented out) at `session.rs`
lines 235, 252, 271-276, 286-291, 309, 319 and 339. -/

/-- Modelled from the spec: a derived resource wrapper (`AsyncChannel`,
`AsyncListener`, `AsyncSftp`, `AsyncAgent` are all this shape): an engine
sub-handle plus a shared handle to the parent's Readiness Source. -/
structure DerivedResource (H : Type) where
  handle : H
  stream : Arc

/-- Modelled from the spec: `from_parts` — wrap an engine sub-handle
together with a (cloned, hence identical) Readiness Source handle. -/
def DerivedResource.from_parts {H : Type} (handle : H) (stream : Arc) : DerivedResource H :=
  ⟨handle, stream⟩

/-- Modelled from the spec: the success path of a derived-resource opener
(`channel_session`, `channel_direct_tcpip`, `channel_forward_listen`,
`channel_open`, `scp_send`, `scp_recv`, `sftp`, `agent`): the engine
result (obtained through the Retry Adapter) is mapped through
`from_parts` with `self.stream.clone()`. -/
def AsyncSession.open_derived {H : Type} (s : AsyncSession) (ret : Except Error H) :
    Except Error (DerivedResource H) :=
  ret.map fun h => DerivedResource.from_parts h s.stream.clone

/-! ## `userauth_agent` (`session.rs` lines 113-128)

The `AsyncAgent` collaborator (agent.rs, not among the provided sources)
is modelled from the spec: `connect` and `list_identities` are adapted
engine calls that may fail, `identities` yields the fetched identity
list, `userauth` attempts authentication with one identity.  They appear
here as oracles; the control flow below — connect, list, take the first
identity or fail, authenticate with exactly that one — is the live code
of `userauth_agent`. -/

/-- An agent-held public-key identity (key blob plus comment). -/
structure PublicKey where
  blob : List Nat
  comment : String
  deriving Repr, DecidableEq

/-- The observable result of one `userauth_agent` call: the value the
caller gets, plus the list of identities the agent's `userauth` was
invoked with, in order. -/
structure AgentAuthRun where
  result : Except IoError Unit
  userauth_attempts : List PublicKey
  deriving Repr

/-- `AsyncSession::userauth_agent` (`session.rs` lines 113-128): connect
to the agent, list identities, take `identities.get(0)`; if there is
none, fail with an `Other`-kind "no identities found in the ssh agent"
error without any authentication attempt; otherwise attempt
authentication with exactly that first identity and return its outcome.
`connect_ret` / `list_ret` are the adapted outcomes of `agent.connect()`
and `agent.list_identities()`; `identities` is what `agent.identities()`
then yields; `userauth_ret` is the adapted outcome of
`agent.userauth(username, identity)`. -/
def AsyncSession.userauth_agent (username : String)
    (connect_ret list_ret : Except IoError Unit) (identities : List PublicKey)
    (userauth_ret : String → PublicKey → Except IoError Unit) : AgentAuthRun :=
  match connect_ret with
  | .error e => ⟨.error e, []⟩
  | .ok _ =>
    match list_ret with
    | .error e => ⟨.error e, []⟩
    | .ok _ =>
      match identities.get? 0 with
      | none => ⟨.error ⟨.other, .msg "no identities found in the ssh agent"⟩, []⟩
      | some identity => ⟨userauth_ret username identity, [identity]⟩

/-! ## Named derived-resource openers (`session.rs` lines 229-341)

Each opener routes the engine call through the Retry Adapter; its adapted
outcome appears here as the `ret` argument (the operation's own arguments
are absorbed into it).  On success the resource is built by `from_parts`
with `self.stream.clone()`, per the commented construction at each call
site. -/

/-- The file metadata `scp_recv` returns alongside the channel (ssh2
`ScpFileStat`). -/
structure ScpFileStat where
  size : Nat
  mode : Nat
  deriving Repr, DecidableEq

/-- `AsyncSession::channel_session` (`session.rs` lines 229-237), success
path modelled from the spec. -/
def AsyncSession.channel_session (s : AsyncSession) (ret : Except Error Nat) :
    Except Error (DerivedResource Nat) :=
  s.open_derived ret

/-- `AsyncSession::channel_direct_tcpip` (`session.rs` lines 239-254),
success path modelled from the spec. -/
def AsyncSession.channel_direct_tcpip (s : AsyncSession) (ret : Except Error Nat) :
    Except Error (DerivedResource Nat) :=
  s.open_derived ret

/-- `AsyncSession::channel_forward_listen` (`session.rs` lines 256-278),
success path modelled from the spec: the listener wraps the stream, the
bound port is passed through. -/
def AsyncSession.channel_forward_listen (s : AsyncSession) (ret : Except Error (Nat × Nat)) :
    Except Error (DerivedResource Nat × Nat) :=
  ret.map fun p => (DerivedResource.from_parts p.1 s.stream.clone, p.2)

/-- `AsyncSession::scp_recv` (`session.rs` lines 280-293), success path
modelled from the spec: the channel wraps the stream, the file stat is
passed through. -/
def AsyncSession.scp_recv (s : AsyncSession) (ret : Except Error (Nat × ScpFileStat)) :
    Except Error (DerivedResource Nat × ScpFileStat) :=
  ret.map fun p => (DerivedResource.from_parts p.1 s.stream.clone, p.2)

/-- `AsyncSession::scp_send` (`session.rs` lines 295-311), success path
modelled from the spec. -/
def AsyncSession.scp_send (s : AsyncSession) (ret : Except Error Nat) :
    Except Error (DerivedResource Nat) :=
  s.open_derived ret

/-- `AsyncSession::sftp` (`session.rs` lines 313-321), success path
modelled from the spec. -/
def AsyncSession.sftp (s : AsyncSession) (ret : Except Error Nat) :
    Except Error (DerivedResource Nat) :=
  s.open_derived ret

/-- `AsyncSession::channel_open` (`session.rs` lines 323-341), success
path modelled from the spec. -/
def AsyncSession.channel_open (s : AsyncSession) (ret : Except Error Nat) :
    Except Error (DerivedResource Nat) :=
  s.open_derived ret

/-! ## Theorems -/

/-- The retry loop skips any run of would-block attempts: if the `k`
invocations starting at index `i` all would-block, the loop proceeds to
invocation `i + k` with `k` units of fuel consumed. -/
theorem retryFrom_skip_blocks {T E : Type} (op : Nat → EngineOutcome T E) :
    ∀ (k i fuel : Nat), (∀ j, j < k → ∃ d, op (i + j) = EngineOutcome.wouldBlock d) →
      k < fuel → retryFrom op i fuel = retryFrom op (i + k) (fuel - k) := by
  intro k
  induction k with
  | zero => intro i fuel _ _; simp
  | succ k ih =>
    intro i fuel hblocks hfuel
    obtain ⟨f, rfl⟩ : ∃ f, fuel = f + 1 := ⟨fuel - 1, by omega⟩
    obtain ⟨d, hd⟩ := hblocks 0 (Nat.succ_pos k)
    have step : retryFrom op i (f + 1) = retryFrom op (i + 1) f := by
      simp only [retryFrom]
      rw [show i + 0 = i from rfl] at hd
      rw [hd]
    rw [step, ih (i + 1) f (fun j hj => by
      obtain ⟨d', hd'⟩ := hblocks (j + 1) (by omega)
      exact ⟨d', by rw [show i + 1 + j = i + (j + 1) by omega]; exact hd'⟩) (by omega)]
    congr 1 <;> omega

/-- Claim C1: for every adapted operation, a would-block outcome is never
surfaced — the adapter absorbs all `k` leading would-blocks — and the
first non-would-block engine error makes the adapted call fail with
exactly that error after exactly `k + 1` invocations of the closure, i.e.
with zero additional invocations beyond the failing one. -/
theorem read_and_write_with_error_immediate {T E : Type}
    (op : Nat → EngineOutcome T E) (k fuel : Nat) (e : E)
    (hblocks : ∀ j, j < k → ∃ d, op j = EngineOutcome.wouldBlock d)
    (herr : op k = EngineOutcome.failure e)
    (hfuel : k < fuel) :
    read_and_write_with op fuel = some (Except.error e, k + 1) := by
  unfold read_and_write_with
  rw [retryFrom_skip_blocks op k 0 fuel (fun j hj => by simpa using hblocks j hj) hfuel]
  obtain ⟨m, hm⟩ : ∃ m, fuel - k = m + 1 := ⟨fuel - k - 1, by omega⟩
  rw [hm]
  simp [retryFrom, herr]

/-- Concrete run for C1: one would-block then a protocol failure; the
adapted call returns exactly that failure after exactly two invocations. -/
theorem read_and_write_with_error_immediate_witness :
    read_and_write_with
        (fun n => if n = 0 then EngineOutcome.wouldBlock BlockDir.both
          else EngineOutcome.failure (Ssh2Error.mk (-18) "auth failed") :
          Nat → EngineOutcome Unit Ssh2Error) 5 =
      some (Except.error (Ssh2Error.mk (-18) "auth failed"), 2) :=
  read_and_write_with_error_immediate _ 1 5 _
    (fun j hj => by interval_cases j; exact ⟨BlockDir.both, rfl⟩) rfl (by omega)

/-- Claim C2: a closure that would-blocks `N` times and then succeeds
makes the adapted call resolve with that success value after exactly
`N + 1` invocations, and that value is the one obtained by invoking the
closure `N + 1` times synchronously with readiness restored between
attempts — retrying is invisible in the result. -/
theorem read_and_write_with_transparent_retry {T E : Type}
    (op : Nat → EngineOutcome T E) (N fuel : Nat) (v : T)
    (hblocks : ∀ j, j < N → ∃ d, op j = EngineOutcome.wouldBlock d)
    (hsucc : op N = EngineOutcome.success v)
    (hfuel : N < fuel) :
    read_and_write_with op fuel = some (Except.ok v, N + 1) ∧
      syncRetriedValue op N = some v := by
  constructor
  · unfold read_and_write_with
    rw [retryFrom_skip_blocks op N 0 fuel (fun j hj => by simpa using hblocks j hj) hfuel]
    obtain ⟨m, hm⟩ : ∃ m, fuel - N = m + 1 := ⟨fuel - N - 1, by omega⟩
    rw [hm]
    simp [retryFrom, hsucc]
  · simp [syncRetriedValue, hsucc]

/-- Concrete run for C2: two would-blocks then success with value 42; the
adapted call resolves with 42 after three invocations, matching the
synchronous retried value. -/
theorem read_and_write_with_transparent_retry_witness :
    read_and_write_with
        (fun n => if n < 2 then EngineOutcome.wouldBlock BlockDir.inbound
          else EngineOutcome.success 42 : Nat → EngineOutcome Nat Ssh2Error) 9 =
        some (Except.ok 42, 3) ∧
      syncRetriedValue
        (fun n => if n < 2 then EngineOutcome.wouldBlock BlockDir.inbound
          else EngineOutcome.success 42 : Nat → EngineOutcome Nat Ssh2Error) 2 = some 42 :=
  read_and_write_with_transparent_retry _ 2 9 _
    (fun j hj => by interval_cases j <;> exact ⟨BlockDir.inbound, rfl⟩) rfl (by omega)

/-- Claim C3: when the agent's identity list is empty (and connect and
list succeed), `userauth_agent` fails with the `Other`-kind "no
identities found in the ssh agent" error and invokes the agent's
`userauth` zero times. -/
theorem userauth_agent_no_identities (username : String)
    (userauth_ret : String → PublicKey → Except IoError Unit) :
    AsyncSession.userauth_agent username (Except.ok ()) (Except.ok ()) [] userauth_ret =
      ⟨Except.error ⟨IoErrorKind.other, IoPayload.msg "no identities found in the ssh agent"⟩,
        []⟩ :=
  rfl

/-- Claim C6: with a non-empty identity list (connect and list
succeeding), `userauth_agent` attempts authentication with exactly the
first identity — the attempt list is `[id0]` whatever the outcome, so no
subsequent identity is tried on failure — and returns that single
attempt's outcome. -/
theorem userauth_agent_first_identity_only (username : String)
    (id0 : PublicKey) (rest : List PublicKey)
    (userauth_ret : String → PublicKey → Except IoError Unit) :
    AsyncSession.userauth_agent username (Except.ok ()) (Except.ok ()) (id0 :: rest)
        userauth_ret =
      ⟨userauth_ret username id0, [id0]⟩ :=
  rfl

/-- Claim C4: every derived-resource opener, on success, hands back a
resource whose Readiness Source handle is the very same `Arc` allocation
(pointer identity) as the parent session's. -/
theorem openers_share_readiness_source (s : AsyncSession) (ch li sf port : Nat)
    (stat : ScpFileStat) :
    (s.channel_session (Except.ok ch)).map (fun c => c.stream.ptr) = Except.ok s.stream.ptr ∧
      (s.channel_direct_tcpip (Except.ok ch)).map (fun c => c.stream.ptr) =
        Except.ok s.stream.ptr ∧
      (s.channel_forward_listen (Except.ok (li, port))).map (fun p => p.1.stream.ptr) =
        Except.ok s.stream.ptr ∧
      (s.channel_open (Except.ok ch)).map (fun c => c.stream.ptr) = Except.ok s.stream.ptr ∧
      (s.scp_send (Except.ok ch)).map (fun c => c.stream.ptr) = Except.ok s.stream.ptr ∧
      (s.scp_recv (Except.ok (ch, stat))).map (fun p => p.1.stream.ptr) =
        Except.ok s.stream.ptr ∧
      (s.sftp (Except.ok sf)).map (fun c => c.stream.ptr) = Except.ok s.stream.ptr :=
  ⟨rfl, rfl, rfl, rfl, rfl, rfl, rfl⟩

/-- Claim C5: `get_session` issues exactly one setter call per present
configuration field, in the fixed order banner, sigpipe, compress,
timeout, keepalive (after the initial `set_blocking false`); an absent
field contributes no call and leaves the corresponding engine setting at
its built-in default, and a missing configuration issues no setter call
at all. -/
theorem get_session_fixed_order (cfg : SessionConfiguration) :
    (get_session (some cfg)).calls =
        [EngineCall.set_blocking false]
          ++ cfg.banner.toList.map EngineCall.set_banner
          ++ cfg.allow_sigpipe.toList.map EngineCall.set_allow_sigpipe
          ++ cfg.compress.toList.map EngineCall.set_compress
          ++ cfg.timeout.toList.map (fun d => EngineCall.set_timeout (d.as_millis % 2 ^ 32))
          ++ cfg.keepalive.toList.map
              (fun k => EngineCall.set_keepalive k.want_reply k.interval) ∧
      (get_session (some cfg)).banner = cfg.banner ∧
      (get_session (some cfg)).allow_sigpipe = cfg.allow_sigpipe ∧
      (get_session (some cfg)).compress = cfg.compress ∧
      (get_session (some cfg)).timeout_ms = cfg.timeout.map (fun d => d.as_millis % 2 ^ 32) ∧
      (get_session (some cfg)).keepalive =
        cfg.keepalive.map (fun k => (k.want_reply, k.interval)) ∧
      (get_session none).calls = [EngineCall.set_blocking false] := by
  obtain ⟨b, sp, cp, t, ka⟩ := cfg
  cases b <;> cases sp <;> cases cp <;> cases t <;> cases ka <;>
    simp [get_session, EngineSession.new, EngineSession.set_blocking, EngineSession.set_banner,
      EngineSession.set_allow_sigpipe, EngineSession.set_compress, EngineSession.set_timeout,
      EngineSession.set_keepalive]

/-- Claim C9: every engine produced by `get_session` is switched to
non-blocking mode as the very first setter call, before any configuration
field is applied, so `is_blocking` on a freshly constructed
`AsyncSession` is `false` whatever the configuration. -/
theorem session_nonblocking_after_construction (fd streamPtr : Nat)
    (cfg : Option SessionConfiguration) :
    (AsyncSession.new fd streamPtr cfg).is_blocking = false ∧
      (get_session cfg).calls.head? = some (EngineCall.set_blocking false) := by
  cases cfg with
  | none =>
    simp [AsyncSession.new, AsyncSession.is_blocking, get_session, EngineSession.new,
      EngineSession.set_blocking, EngineSession.set_tcp_stream]
  | some cfg =>
    obtain ⟨b, sp, cp, t, ka⟩ := cfg
    cases b <;> cases sp <;> cases cp <;> cases t <;> cases ka <;>
      simp [AsyncSession.new, AsyncSession.is_blocking, get_session, EngineSession.new,
        EngineSession.set_blocking, EngineSession.set_tcp_stream, EngineSession.set_banner,
        EngineSession.set_allow_sigpipe, EngineSession.set_compress, EngineSession.set_timeout,
        EngineSession.set_keepalive]

/-- Claim C8: any two `SessionConfiguration` setters targeting distinct
fields commute — applying them in either order yields the same
configuration value (all ten unordered pairs). -/
theorem sessionconfiguration_setters_commute (c : SessionConfiguration) (s : String)
    (b1 b2 : Bool) (ms iv : Nat) :
    (c.set_banner s).set_allow_sigpipe b1 = (c.set_allow_sigpipe b1).set_banner s ∧
      (c.set_banner s).set_compress b1 = (c.set_compress b1).set_banner s ∧
      (c.set_banner s).set_timeout ms = (c.set_timeout ms).set_banner s ∧
      (c.set_banner s).set_keepalive b1 iv = (c.set_keepalive b1 iv).set_banner s ∧
      (c.set_allow_sigpipe b1).set_compress b2 = (c.set_compress b2).set_allow_sigpipe b1 ∧
      (c.set_allow_sigpipe b1).set_timeout ms = (c.set_timeout ms).set_allow_sigpipe b1 ∧
      (c.set_allow_sigpipe b1).set_keepalive b2 iv =
        (c.set_keepalive b2 iv).set_allow_sigpipe b1 ∧
      (c.set_compress b1).set_timeout ms = (c.set_timeout ms).set_compress b1 ∧
      (c.set_compress b1).set_keepalive b2 iv = (c.set_keepalive b2 iv).set_compress b1 ∧
      (c.set_timeout ms).set_keepalive b1 iv = (c.set_keepalive b1 iv).set_timeout ms :=
  ⟨rfl, rfl, rfl, rfl, rfl, rfl, rfl, rfl, rfl, rfl⟩

/-- Claim C7: the adapted error type's conversion to a generic I/O error
returns the transport I/O variant's error unchanged and wraps the engine
protocol variant and the boxed variant as I/O errors of kind `Other`,
preserving the contained error value in the payload in every case. -/
theorem error_to_ioerror_conversion (e1 : Ssh2Error) (e2 : IoError) (e3 : String) :
    Error.toIoError (Error.Io e2) = e2 ∧
      Error.toIoError (Error.Ssh2 e1) = ⟨IoErrorKind.other, IoPayload.ssh2 e1⟩ ∧
      Error.toIoError (Error.Other e3) = ⟨IoErrorKind.other, IoPayload.boxed e3⟩ :=
  ⟨rfl, rfl, rfl⟩

/-- Claim C10: for any u32 millisecond count, storing it with
`set_timeout` (as a `Duration`) and reading it back at engine-setup time
(`as_millis() as u32`) applies exactly that count to the engine: the
round-trip through `Duration` is lossless over the whole u32 range. -/
theorem set_timeout_roundtrip_lossless (ms : Nat) (h : ms < 2 ^ 32) :
    (get_session (some (SessionConfiguration.new.set_timeout ms))).timeout_ms = some ms := by
  simp [get_session, SessionConfiguration.new, SessionConfiguration.set_timeout,
    Duration.from_millis, Duration.as_millis, EngineSession.new, EngineSession.set_blocking,
    EngineSession.set_timeout]
  omega

/-- Concrete run for C10: the largest u32 value survives the round-trip. -/
theorem set_timeout_roundtrip_lossless_witness :
    (get_session (some (SessionConfiguration.new.set_timeout 4294967295))).timeout_ms =
      some 4294967295 :=
  set_timeout_roundtrip_lossless 4294967295 (by norm_num)

end AsyncSsh2
